import Mathlib

/-
Verification of the rinexmod batch-remediation script (src/rinexmod.py).

This file gives a shallow embedding of the `rinexmod` function (the
orchestrator of the per-file pipeline) and of the pure helpers it
contains: the nine-char site index construction (lines 224-229), the
marker rename step (line 276), the long-name construction (lines
293-302), the configuration validation (lines 129-201), and the
per-file loop (lines 231-384).

Modelling conventions:
  * Python strings are Lean `String`s; slicing, `lower`, `upper` are
    modelled code-point-wise over `String.data` (`pyTake`, `pyDrop`,
    `pyLower`, `pyUpper`).  `str.strip()` is `String.trim` (both strip
    surrounding whitespace).
  * External collaborators are represented by their observable data:
    `RinexFile(file)` (module rinexfile, not part of this source) is a
    `FileInput` record carrying the fields the orchestrator reads
    (status, filename, station, start/end date, file_period,
    sample_rate, observable_type, compression); `SiteLog` (module
    sitelogs_IGS) is a record carrying status, filename, the
    four-character id from section 1. of the log, and its
    `rinex_metadata_lines` resolver as an abstract function.
  * Side effects (logger calls, header setter calls on the external
    file handle, the final write) are recorded as an `Action` trace.
    Log actions keep the numeric classification code and the file
    path; the full message texts are external formatting.
  * OS facilities are modelled by their results: `os.path.abspath` of
    the output folder (line 153) and of each file's directory (line
    235) are supplied as already-absolutized strings; `os.path.relpath`
    of a file against the reconstruct prefix (line 245) is supplied in
    the `FileInput`; directory creation, the log-file handler and the
    console prints of lines 140 and 144 are effect-free for the
    properties studied and are not recorded.
  * Python local-variable semantics are modelled faithfully where they
    matter: the loop-spanning locals `compression` and
    `modification_source` are threaded through `LoopState`
    (`modification_source = none` models the name being unbound, and
    reading it then raises `NameError`, a `PyErr`); the name `err_msg`
    used at line 260 is bound nowhere in the module, so the status-2
    branch raises `NameError` while building the log message.
-/

namespace Rinexmod

/-- Python `str.lower()` (code-point map; the station codes and markers
handled by the script are ASCII). -/
def pyLower (s : String) : String := String.mk (s.data.map Char.toLower)

/-- Python `str.upper()`. -/
def pyUpper (s : String) : String := String.mk (s.data.map Char.toUpper)

/-- Python slice `s[:n]`. -/
def pyTake (n : Nat) (s : String) : String := String.mk (s.data.take n)

/-- Python slice `s[n:]`. -/
def pyDrop (n : Nat) (s : String) : String := String.mk (s.data.drop n)

/-- Python `os.path.join(a, b)` for the non-degenerate case used at line
246 (joining the absolute output folder with a relative subpath). -/
def pyPathJoin (a b : String) : String := a ++ "/" ++ b

/-- Character-list prefix test (helper for the substring test). -/
def startsWithChars : List Char → List Char → Bool
  | [], _ => true
  | _ :: _, [] => false
  | a :: as, b :: bs => a == b && startsWithChars as bs

/-- Character-list substring test (helper for `pyIn`). -/
def containsChars (needle : List Char) : List Char → Bool
  | [] => startsWithChars needle []
  | h :: t => startsWithChars needle (h :: t) || containsChars needle t

/-- Python substring test `needle in hay` (line 240). -/
def pyIn (needle hay : String) : Bool := containsChars needle.data hay.data

/-- A Python `datetime` restricted to the directives the script formats
with (`%Y`, `%j`, `%H`, `%M` at lines 294-296): year, day of year, hour,
minute. -/
structure PyDateTime where
  year : Nat
  yday : Nat
  hour : Nat
  minute : Nat
deriving DecidableEq

/-- Zero-padded decimal rendering, as the strftime directives produce
(`%Y` width 4, `%j` width 3, `%H`/`%M` width 2). -/
def pad (w n : Nat) : String :=
  let s := toString n
  String.mk (List.replicate (w - s.length) '0') ++ s

/-- `start_date.strftime('%Y%j0000')` — the time token of a daily file
(line 294). -/
def timeTokenDaily (d : PyDateTime) : String :=
  pad 4 d.year ++ pad 3 d.yday ++ "0000"

/-- `start_date.strftime('%Y%j%H%M')` — the time token of a non-daily
file (line 296). -/
def timeTokenFull (d : PyDateTime) : String :=
  pad 4 d.year ++ pad 3 d.yday ++ pad 2 d.hour ++ pad 2 d.minute

/-- Long-name construction, lines 293-302: the underscore-join of site,
time token (daily or full depending on `file_period == '01D'`), period,
sample rate, and observable type suffixed with `O.rnx`. -/
def longFilename (site : String) (d : PyDateTime)
    (file_period sample_rate observable_type : String) : String :=
  String.intercalate "_"
    [site,
     (if file_period = "01D" then timeTokenDaily d else timeTokenFull d),
     file_period,
     sample_rate,
     observable_type ++ "O.rnx"]

/-- The marker rename step, line 276:
`rinexfileobj.filename = marker.lower() + rinexfileobj.filename[4:]`. -/
def applyMarker (marker filename : String) : String :=
  pyLower marker ++ pyDrop 4 filename

/-- Key of one nine-char list line: `site_key[:4].lower()` (line 229). -/
def nineCharKey (line : String) : String := pyLower (pyTake 4 line)

/-- One assignment `nine_char_dict[site_key[:4].lower()] = site_key.strip()`
(line 229), as an update of a lookup function. -/
def nineCharUpd (d : String → Option String) (line : String) :
    String → Option String :=
  fun k => if k = nineCharKey line then some line.trim else d k

/-- The nine-char index built by the loop at lines 228-229. -/
def buildNineCharDict (lines : List String) : String → Option String :=
  lines.foldl nineCharUpd (fun _ => none)

/-- The seven components unpacked from `sitelogobj.rinex_metadata_lines`
at line 331.  Their contents are produced and consumed by external
collaborators (the sitelog parser and the file-handle setters), so they
are carried as opaque strings. -/
structure MetadataVars where
  fourchar_id : String
  observable_type : String
  agencies : String
  receiver : String
  antenna : String
  antenna_pos : String
  antenna_delta : String
deriving DecidableEq

/-- The sitelog object (external collaborator, module sitelogs_IGS):
parse status, filename, `info['1.']['Four Character ID']`, and the
period resolver `rinex_metadata_lines(start, end, ignore)` returning
`(metadata_vars_or_None, ignored)`. -/
structure SiteLog where
  status : Nat
  filename : String
  fourCharID : String
  rinex_metadata_lines : PyDateTime → PyDateTime → Bool → Option MetadataVars × Bool

/-- One input file together with the observable fields of its external
`RinexFile` handle.  `dirAbs` is `os.path.abspath(os.path.dirname(file))`
(line 235); `relFromReconstruct` is the externally computed
`os.path.relpath(os.path.dirname(file), reconstruct)` (line 245). -/
structure FileInput where
  path : String
  dirAbs : String
  status : Nat
  filename : String
  station : String
  file_period : String
  start_date : PyDateTime
  end_date : PyDateTime
  sample_rate : String
  observable_type : String
  compression : String
  relFromReconstruct : String
deriving DecidableEq

/-- The run configuration: the parameters of `rinexmod` (line 122) after
the externally-performed preparations.  `outputfolder` is already
absolutized (line 153); falsy CLI defaults (`0`) are `""` for the string
options `marker` and `reconstruct`, and `none` for `sitelog`,
`ninecharfile` (whose readable lines are supplied), `modification_kw`
and `compression`.  `now` is the run timestamp rendered at line 371. -/
structure RunConfig where
  outputfolder : String
  marker : String
  name : Bool
  sitelog : Option SiteLog
  force : Bool
  reconstruct : String
  ignore : Bool
  ninecharfile : Option (List String)
  modification_kw : Option (List (String × String))
  verbose : Bool
  compression : Option String
  now : String

/-- Python truthiness of the `modification_kw` argument: the falsy
values reaching the checks are `0` (default, modelled `none`) and the
empty dict. -/
def pyTruthyDict (d : Option (List (String × String))) : Bool :=
  match d with
  | none => false
  | some l => !l.isEmpty

/-- Python falsiness of the `compression` loop variable at line 378
(`if not compression`): `0` (default, modelled `none`) or an empty
string. -/
def pyFalsyCompr (c : Option String) : Bool :=
  match c with
  | none => true
  | some s => s == ""

/-- The function-local variables of the file loop that survive from one
iteration to the next: `compression` (reassigned at line 379) and
`modification_source` (assigned at lines 306 and 344; `none` models the
name being unbound). -/
structure LoopState where
  compression : Option String
  modification_source : Option String
deriving DecidableEq

/-- An uncaught Python exception: `NameError` on the named variable. -/
structure PyErr where
  name : String
deriving DecidableEq

/-- Observable effects of one run, in emission order.  Log actions keep
the numeric classification code of the message and the file path; calls
into the external file handle are recorded with their arguments. -/
inductive Action where
  | logInfo (msg : String)
  | logInfoMetadata
  | logInfoOutputFile
  | logError (code : Nat) (file : String)
  | logWarning (code : Nat) (file : String)
  | applySitelogMeta (m : MetadataVars)
  | applyKw (kw : List (String × String))
  | addComment (c : String)
  | write (folder : String) (filename : String) (compression : Option String)
deriving DecidableEq

/-- Trace predicate: the action is a `logger.error` call. -/
def isLogError : Action → Bool
  | Action.logError _ _ => true
  | _ => false

/-- Trace predicate: the action is a `write_to_path` call. -/
def isWrite : Action → Bool
  | Action.write _ _ _ => true
  | _ => false

/-- The list of acceptable modification keywords, lines 182-196. -/
def acceptable_keywords : List String :=
  ["station",
   "receiver_serial",
   "receiver_type",
   "receiver_fw",
   "antenna_serial",
   "antenna_type",
   "antenna_X_pos",
   "antenna_Y_pos",
   "antenna_Z_pos",
   "antenna_X_delta",
   "antenna_Y_delta",
   "antenna_Z_delta",
   "operator",
   "agency",
   "observables"]

/-- Site resolution of the long-name branch, lines 281-291: look the
(possibly marker-updated) lower-cased first four filename characters up
in the nine-char index, falling back to `<4-char upper> ++ "00XXX"` with
warning 32 when the index is absent or has no such key. -/
def siteResolve (nineDict : Option (String → Option String))
    (filename1 fpath : String) : List Action × String :=
  match nineDict with
  | some d =>
    match d (pyLower (pyTake 4 filename1)) with
    | some site => ([], site)
    | none => ([Action.logWarning 32 fpath], pyUpper (pyTake 4 filename1) ++ "00XXX")
  | none => ([Action.logWarning 32 fpath], pyUpper (pyTake 4 filename1) ++ "00XXX")

/-- Lines 377-384: the compression default (`if not compression:
compression = rinexfileobj.compression` — note this reassigns the
loop-shared variable) followed by `write_to_path` and the verbose
output-file log.  Returns the surviving loop locals. -/
def writeStep (cfg : RunConfig) (f : FileInput)
    (myoutputfolder filename2 : String) (tr : List Action)
    (compr0 : Option String) (msrc : Option String) :
    Except (List Action × PyErr) (List Action × LoopState) :=
  let compr := if pyFalsyCompr compr0 then some f.compression else compr0
  let tr := tr ++ [Action.write myoutputfolder filename2 compr]
  let tr := tr ++ (if cfg.verbose then [Action.logInfoOutputFile] else [])
  Except.ok (tr, { compression := compr, modification_source := msrc })

/-- Lines 374-375: the rename provenance comment
`'file assigned  from {}'.format(modification_source)`, emitted when a
marker was supplied.  Reading `modification_source` while it is unbound
raises `NameError`. -/
def markerCommentStep (cfg : RunConfig) (st : LoopState) (f : FileInput)
    (myoutputfolder filename2 : String) (tr : List Action)
    (msrc : Option String) :
    Except (List Action × PyErr) (List Action × LoopState) :=
  if cfg.marker ≠ "" then
    match msrc with
    | none => Except.error (tr, ⟨"modification_source"⟩)
    | some s =>
      writeStep cfg f myoutputfolder filename2
        (tr ++ [Action.addComment ("file assigned  from " ++ s)]) st.compression msrc
  else
    writeStep cfg f myoutputfolder filename2 tr st.compression msrc

/-- Lines 342-373: the keyword-modification block, the second verbose
metadata dump, and the two audit comments. -/
def finishTail (cfg : RunConfig) (st : LoopState) (f : FileInput)
    (myoutputfolder filename2 : String) (tr : List Action)
    (msrc : Option String) :
    Except (List Action × PyErr) (List Action × LoopState) :=
  let kwOn := pyTruthyDict cfg.modification_kw
  let tr := if kwOn then tr ++ [Action.applyKw (cfg.modification_kw.getD [])] else tr
  let msrc := if kwOn then some "command line" else msrc
  let tr := tr ++ (if cfg.verbose then [Action.logInfoMetadata] else [])
  let tr := tr ++ [Action.addComment ("rinexmoded on " ++ cfg.now)]
  if cfg.sitelog.isSome || kwOn then
    match msrc with
    | none => Except.error (tr, ⟨"modification_source"⟩)
    | some s =>
      markerCommentStep cfg st f myoutputfolder filename2
        (tr ++ [Action.addComment ("rinexmoded from " ++ s)]) msrc
  else
    markerCommentStep cfg st f myoutputfolder filename2 tr msrc

/-- Lines 320-340: the period resolution
(`sitelogobj.rinex_metadata_lines`), the no-coverage error 35 with skip,
the merged-periods warning 36, and the seven header setter calls
(recorded as one `applySitelogMeta`). -/
def sitelogApply (cfg : RunConfig) (sl : SiteLog) (st : LoopState) (f : FileInput)
    (myoutputfolder filename2 : String) (tr : List Action) :
    Except (List Action × PyErr) (List Action × LoopState) :=
  let res := sl.rinex_metadata_lines f.start_date f.end_date cfg.ignore
  match res.1 with
  | none =>
    Except.ok (tr ++ [Action.logError 35 f.path],
      { st with modification_source := some sl.filename })
  | some m =>
    let tr := tr ++ (if res.2 then [Action.logWarning 36 f.path] else [])
    let tr := tr ++ [Action.applySitelogMeta m]
    finishTail cfg { st with modification_source := some sl.filename } f
      myoutputfolder filename2 tr (some sl.filename)

/-- Lines 304-318: the station-code comparison of a sitelog-driven run.
As in the source, the mismatch branch logs error 33 and then FALLS
THROUGH to the resolution step when `force` is not set, while the
`force` branch logs warning 34 and executes `continue`, skipping the
file. -/
def sitelogBlock (cfg : RunConfig) (sl : SiteLog) (st : LoopState) (f : FileInput)
    (myoutputfolder filename2 : String) (tr : List Action) :
    Except (List Action × PyErr) (List Action × LoopState) :=
  let sitelog_sta_code := pyLower sl.fourCharID
  let station_meta := pyLower f.station
  if sitelog_sta_code ≠ station_meta then
    if ¬ cfg.force then
      sitelogApply cfg sl st f myoutputfolder filename2
        (tr ++ [Action.logError 33 f.path])
    else
      Except.ok (tr ++ [Action.logWarning 34 f.path],
        { st with modification_source := some sl.filename })
  else
    sitelogApply cfg sl st f myoutputfolder filename2 tr

/-- The body of `for file in rinexlist:` (lines 231-384) for one file.
`Except.ok (trace, state)` models reaching the end of the body or a
`continue`; `Except.error (trace, e)` models an uncaught exception
propagating out of `rinexmod`. -/
def processFile (cfg : RunConfig) (nineDict : Option (String → Option String))
    (st : LoopState) (f : FileInput) :
    Except (List Action × PyErr) (List Action × LoopState) :=
  let tr := [Action.logInfo ("# File : " ++ f.path)]
  if f.dirAbs = cfg.outputfolder then
    Except.ok (tr ++ [Action.logError 30 f.path], st)
  else if cfg.reconstruct ≠ "" ∧ ¬ (pyIn cfg.reconstruct f.path = true) then
    Except.ok (tr ++ [Action.logError 31 f.path], st)
  else
    let myoutputfolder :=
      if cfg.reconstruct ≠ "" then pyPathJoin cfg.outputfolder f.relFromReconstruct
      else cfg.outputfolder
    if f.status = 1 then Except.ok (tr ++ [Action.logError 1 f.path], st)
    else if f.status = 2 then
      -- line 260 formats the message with the name `err_msg`, which is
      -- bound nowhere in the module: NameError.
      Except.error (tr, ⟨"err_msg"⟩)
    else if f.status = 3 then Except.ok (tr ++ [Action.logError 3 f.path], st)
    else if f.status = 4 then Except.ok (tr ++ [Action.logError 4 f.path], st)
    else
      let tr := tr ++ (if cfg.verbose then [Action.logInfoMetadata] else [])
      let filename1 := if cfg.marker ≠ "" then applyMarker cfg.marker f.filename else f.filename
      let sres :=
        if cfg.name then
          let s := siteResolve nineDict filename1 f.path
          (s.1, longFilename s.2 f.start_date f.file_period f.sample_rate f.observable_type)
        else ([], filename1)
      let tr := tr ++ sres.1
      let filename2 := sres.2
      match cfg.sitelog with
      | some sl => sitelogBlock cfg sl st f myoutputfolder filename2 tr
      | none => finishTail cfg st f myoutputfolder filename2 tr st.modification_source

/-- The file loop: sequential processing threading the loop-spanning
locals, stopping with the pending exception if one is raised. -/
def processAll (cfg : RunConfig) (nineDict : Option (String → Option String)) :
    LoopState → List FileInput → List Action × Option PyErr
  | _, [] => ([], none)
  | st, f :: rest =>
    match processFile cfg nineDict st f with
    | Except.error (tr, e) => (tr, some e)
    | Except.ok (tr, st') =>
      let r := processAll cfg nineDict st' rest
      (tr ++ r.1, r.2)

/-- Result of a whole run: an upfront configuration failure (a print
and `return` before the loop), a completed loop, or a loop aborted by
an uncaught exception. -/
inductive RunResult where
  | configError (msg : String)
  | completed (trace : List Action)
  | aborted (trace : List Action) (err : PyErr)
deriving DecidableEq

/-- Sitelog parse-status check of lines 170-176 as a Bool. -/
def sitelogBad (s : Option SiteLog) : Bool :=
  match s with
  | some sl => sl.status != 0
  | none => false

/-- The test `kw not in acceptable_keywords` of line 199. -/
def kwUnacceptable (p : String × String) : Bool :=
  !acceptable_keywords.contains p.1

/-- The `rinexmod` function (lines 122-388) over an already-resolved
input file list: upfront validation in source order (mutually exclusive
sources, line 129; no action requested, line 134; unparsable sitelog,
line 174; unknown modification keyword, lines 180-201 — aborting on the
first offending key), then the nine-char index construction and the
file loop.  The console-only warnings of lines 139-144 and the external
I/O of lines 147-166 and 206-225 do not affect the modelled state. -/
def rinexmod (cfg : RunConfig) (files : List FileInput) : RunResult :=
  if cfg.sitelog.isSome && pyTruthyDict cfg.modification_kw then
    RunResult.configError "sitelog and modification_kw both provided"
  else if !cfg.sitelog.isSome && !pyTruthyDict cfg.modification_kw
      && (cfg.marker == "") && !cfg.name then
    RunResult.configError "no action asked"
  else if sitelogBad cfg.sitelog then
    RunResult.configError "the sitelog is not parsable"
  else
    match (if pyTruthyDict cfg.modification_kw then
             (cfg.modification_kw.getD []).find? kwUnacceptable
           else none) with
    | some p =>
      RunResult.configError (p.1 ++ " is not an acceptable keyword for header modification.")
    | none =>
      let nineDict := cfg.ninecharfile.map buildNineCharDict
      let st0 : LoopState := { compression := cfg.compression, modification_source := none }
      let r := processAll cfg nineDict st0 files
      match r.2 with
      | none => RunResult.completed r.1
      | some e => RunResult.aborted r.1 e

/-- Compressions of the write calls in a trace, in order. -/
def writeComprs (tr : List Action) : List (Option String) :=
  tr.filterMap (fun a => match a with
    | Action.write _ _ c => some c
    | _ => none)

/-- Compressions of the write calls of a whole run. -/
def runWriteComprs : RunResult → List (Option String)
  | RunResult.completed tr => writeComprs tr
  | RunResult.aborted tr _ => writeComprs tr
  | RunResult.configError _ => []

/- Concrete sample inputs used by the closed evaluation theorems and
the witnesses. -/

/-- A baseline configuration: list-mode run into `/data/out`, every
option at its default. -/
def cfgBase : RunConfig :=
  { outputfolder := "/data/out", marker := "", name := false,
    sitelog := none, force := false, reconstruct := "", ignore := false,
    ninecharfile := none, modification_kw := none, verbose := false,
    compression := none, now := "2021-02-07 12:00" }

/-- Sample resolver output of a sitelog. -/
def mvSample : MetadataVars :=
  { fourchar_id := "ABMF", observable_type := "M", agencies := "OVSG",
    receiver := "RCV", antenna := "ANT", antenna_pos := "POS",
    antenna_delta := "DELTA" }

/-- A parsable sitelog for station ABMF whose resolver always finds one
instrumentation period. -/
def slABMF : SiteLog :=
  { status := 0, filename := "abmf00glp.log", fourCharID := "ABMF",
    rinex_metadata_lines := fun _ _ _ => (some mvSample, false) }

/-- A parsable sitelog for station TTT1 whose resolver finds no
instrumentation period. -/
def slTTT1none : SiteLog :=
  { status := 0, filename := "ttt100xxx.log", fourCharID := "TTT1",
    rinex_metadata_lines := fun _ _ _ => (none, false) }

/-- A loaded observation file of station TTT1, Hatanaka Z-compressed. -/
def fileTTT : FileInput :=
  { path := "/data/in/ttt10010.21d", dirAbs := "/data/in", status := 0,
    filename := "ttt10010.21d", station := "TTT1", file_period := "01D",
    start_date := ⟨2021, 1, 0, 0⟩, end_date := ⟨2021, 1, 23, 59⟩,
    sample_rate := "30S", observable_type := "M", compression := "Z",
    relFromReconstruct := "" }

/-- A file record whose load ended with the given status. -/
def fileStatus (n : Nat) (p : String) : FileInput :=
  { fileTTT with path := p, status := n }

/-- A loaded file whose original compression is `gz`. -/
def fileGz : FileInput :=
  { fileTTT with
    path := "/data/in/ggg10010.21d", filename := "ggg10010.21d",
    station := "GGG1", compression := "gz" }

/-- A keyword-override run touching only the agency field. -/
def cfgKw : RunConfig :=
  { cfgBase with modification_kw := some [("agency", "IGN")] }

/- ------------------------------------------------------------------ -/
/- Theorems                                                            -/
/- ------------------------------------------------------------------ -/

/-- C1 — evaluation of the code at the failing input.  On a
sitelog-driven run whose file header station (TTT1) differs from the
sitelog station (ABMF): with `force` NOT set the source logs error 33
but then FALLS THROUGH, applies the sitelog metadata and writes the
file; with `force` set it logs warning 34 and `continue`s, skipping the
file.  Both branches are the opposite of the claim (and of the
script's own description of the `--force` option): the `continue` of
line 318 sits in the `force` branch instead of the `not force` one. -/
theorem station_mismatch_branches_inverted :
    rinexmod { cfgBase with sitelog := some slABMF } [fileTTT] =
      RunResult.completed
        [Action.logInfo "# File : /data/in/ttt10010.21d",
         Action.logError 33 "/data/in/ttt10010.21d",
         Action.applySitelogMeta mvSample,
         Action.addComment "rinexmoded on 2021-02-07 12:00",
         Action.addComment "rinexmoded from abmf00glp.log",
         Action.write "/data/out" "ttt10010.21d" (some "Z")]
    ∧ rinexmod { cfgBase with sitelog := some slABMF, force := true } [fileTTT] =
      RunResult.completed
        [Action.logInfo "# File : /data/in/ttt10010.21d",
         Action.logWarning 34 "/data/in/ttt10010.21d"] :=
  ⟨rfl, rfl⟩

/-- C2 — evaluation of the code at the failing input.  A file whose
load status is 2 makes line 260 interpolate the unbound name `err_msg`:
the resulting `NameError` aborts the whole run, and the following file
is never processed.  Statuses 1, 3 and 4, by contrast, log their
distinct error codes and the loop continues. -/
theorem status2_format_crash_aborts_run :
    rinexmod { cfgBase with marker := "agal" }
        [fileStatus 2 "/data/in/a.bad", fileStatus 3 "/data/in/b.zip"] =
      RunResult.aborted [Action.logInfo "# File : /data/in/a.bad"] ⟨"err_msg"⟩
    ∧ rinexmod { cfgBase with marker := "agal" }
        [fileStatus 1 "/data/in/c.21d", fileStatus 3 "/data/in/b.zip",
         fileStatus 4 "/data/in/d.21d"] =
      RunResult.completed
        [Action.logInfo "# File : /data/in/c.21d", Action.logError 1 "/data/in/c.21d",
         Action.logInfo "# File : /data/in/b.zip", Action.logError 3 "/data/in/b.zip",
         Action.logInfo "# File : /data/in/d.21d", Action.logError 4 "/data/in/d.21d"] :=
  ⟨rfl, rfl⟩

/-- C3 — evaluation of the code at the failing input.  With no explicit
output compression configured, the batch [Z-compressed file,
gz-compressed file] writes BOTH files Z-compressed, and the reversed
batch writes both gz-compressed: line 379 reassigns the loop-shared
`compression` variable to the first file's kind, which then sticks for
every later file. -/
theorem compression_latched_from_first_file :
    fileTTT.compression = "Z" ∧ fileGz.compression = "gz"
    ∧ runWriteComprs (rinexmod cfgKw [fileTTT, fileGz]) = [some "Z", some "Z"]
    ∧ runWriteComprs (rinexmod cfgKw [fileGz, fileTTT]) = [some "gz", some "gz"] :=
  ⟨rfl, rfl, rfl, rfl⟩

/-- C4 — evaluation of the code at the failing input.  In a rename-only
run (marker supplied, no sitelog, no keyword overrides) the local
`modification_source` is never assigned, so the provenance comment of
line 375 raises `NameError` and the run aborts before the file is
persisted: no `write` occurs. -/
theorem rename_only_run_name_error :
    rinexmod { cfgBase with marker := "agal" } [fileTTT] =
      RunResult.aborted
        [Action.logInfo "# File : /data/in/ttt10010.21d",
         Action.addComment "rinexmoded on 2021-02-07 12:00"]
        ⟨"modification_source"⟩ :=
  rfl

/-- C5 — the long-name construction of lines 293-302: a daily (`01D`)
file's time token is the year and day-of-year followed by the literal
`0000` (the start time's hour and minute do not enter), any other
period class encodes year, day-of-year, hour and minute, and the
filename is the underscore-join of the 9-char site, the time token, the
period class, the sample rate, and the observable type suffixed with
`O.rnx`. -/
theorem long_name_format (site : String) (d : PyDateTime)
    (period rate obs : String) :
    (period = "01D" →
      longFilename site d period rate obs =
        site ++ "_" ++ (pad 4 d.year ++ pad 3 d.yday ++ "0000") ++ "_"
          ++ period ++ "_" ++ rate ++ "_" ++ obs ++ "O.rnx")
    ∧ (period ≠ "01D" →
      longFilename site d period rate obs =
        site ++ "_" ++ (pad 4 d.year ++ pad 3 d.yday ++ pad 2 d.hour ++ pad 2 d.minute)
          ++ "_" ++ period ++ "_" ++ rate ++ "_" ++ obs ++ "O.rnx")
    ∧ (period = "01D" → ∀ d' : PyDateTime, d'.year = d.year → d'.yday = d.yday →
      longFilename site d' period rate obs = longFilename site d period rate obs) := by
  refine ⟨fun h => ?_, fun h => ?_, fun h d' hy hj => ?_⟩
  · simp [longFilename, h, timeTokenDaily, String.intercalate, String.intercalate.go,
      String.append_assoc]
  · simp [longFilename, h, timeTokenFull, String.intercalate, String.intercalate.go,
      String.append_assoc]
  · simp [longFilename, h, timeTokenDaily, hy, hj]

/-- Witness for C5 at a concrete start time 2021, day 74, 13:45. -/
theorem long_name_format_witness :
    longFilename "ABMF00GLP" ⟨2021, 74, 13, 45⟩ "01D" "30S" "M" =
      "ABMF00GLP" ++ "_" ++ (pad 4 2021 ++ pad 3 74 ++ "0000") ++ "_"
        ++ "01D" ++ "_" ++ "30S" ++ "_" ++ "M" ++ "O.rnx"
    ∧ longFilename "ABMF00GLP" ⟨2021, 74, 13, 45⟩ "01H" "30S" "M" =
      "ABMF00GLP" ++ "_" ++ (pad 4 2021 ++ pad 3 74 ++ pad 2 13 ++ pad 2 45) ++ "_"
        ++ "01H" ++ "_" ++ "30S" ++ "_" ++ "M" ++ "O.rnx"
    ∧ longFilename "ABMF00GLP" ⟨2021, 74, 13, 45⟩ "01D" "30S" "M" =
      longFilename "ABMF00GLP" ⟨2021, 74, 0, 0⟩ "01D" "30S" "M" := by
  refine ⟨(long_name_format "ABMF00GLP" ⟨2021, 74, 13, 45⟩ "01D" "30S" "M").1 rfl,
          (long_name_format "ABMF00GLP" ⟨2021, 74, 13, 45⟩ "01H" "30S" "M").2.1 (by decide),
          (long_name_format "ABMF00GLP" ⟨2021, 74, 0, 0⟩ "01D" "30S" "M").2.2 rfl
            ⟨2021, 74, 13, 45⟩ rfl rfl⟩

/-- C7 — keyword validation of lines 180-201: a truthy override map
with any key outside the fifteen acceptable keywords makes the run
abort with a configuration error (no file is processed: a
`configError` result carries no trace of file actions), and with every
key acceptable (and no sitelog, so that the earlier mutual-exclusion
check does not fire) the run proceeds past validation into the file
loop. -/
theorem kw_unknown_key_aborts (cfg : RunConfig) (files : List FileInput)
    (hkw : pyTruthyDict cfg.modification_kw = true) :
    ((∃ p ∈ cfg.modification_kw.getD [], p.1 ∉ acceptable_keywords) →
      ∃ msg, rinexmod cfg files = RunResult.configError msg)
    ∧ (cfg.sitelog = none →
      (∀ p ∈ cfg.modification_kw.getD [], p.1 ∈ acceptable_keywords) →
      ∀ msg, rinexmod cfg files ≠ RunResult.configError msg) := by
  constructor
  · rintro ⟨p, hp, hbad⟩
    by_cases hsl : cfg.sitelog.isSome
    · exact ⟨"sitelog and modification_kw both provided", by simp [rinexmod, hsl, hkw]⟩
    · have hfind : ((cfg.modification_kw.getD []).find? kwUnacceptable).isSome := by
        rw [List.find?_isSome]
        exact ⟨p, hp, by simp [kwUnacceptable, hbad]⟩
      rcases Option.isSome_iff_exists.mp hfind with ⟨q, hq⟩
      refine ⟨q.1 ++ " is not an acceptable keyword for header modification.", ?_⟩
      have hnone : cfg.sitelog = none := Option.not_isSome_iff_eq_none.mp hsl
      simp [rinexmod, hnone, hkw, sitelogBad, hq]
  · intro hsl hgood msg
    have hfind : (cfg.modification_kw.getD []).find? kwUnacceptable = none := by
      rw [List.find?_eq_none]
      intro p hp
      simp [kwUnacceptable, hgood p hp]
    simp only [rinexmod, hsl, hkw, sitelogBad, Option.isSome_none, Bool.false_and,
      Bool.and_false, Bool.not_false, Bool.and_self, if_true, if_false,
      Bool.false_eq_true, Bool.not_true, hfind]
    rcases h2 : (processAll cfg (cfg.ninecharfile.map buildNineCharDict)
        { compression := cfg.compression, modification_source := none } files).2 with _ | e <;>
      simp [h2]

/-- Witness for C7: the run with the unknown key `badkey` aborts, the
run with only the acceptable key `agency` does not. -/
theorem kw_unknown_key_aborts_witness :
    (∃ msg, rinexmod { cfgBase with modification_kw := some [("badkey", "1")] } [] =
      RunResult.configError msg)
    ∧ (∀ msg, rinexmod cfgKw [] ≠ RunResult.configError msg) := by
  constructor
  · exact (kw_unknown_key_aborts
      { cfgBase with modification_kw := some [("badkey", "1")] } [] rfl).1
      ⟨("badkey", "1"), by decide, by decide⟩
  · exact (kw_unknown_key_aborts cfgKw [] rfl).2 rfl (by decide)

/-- C8 — the same-folder rejection of lines 235-237: for any
configuration whatsoever and any loop state, a file whose (absolutized)
resident directory equals the output directory yields exactly the
per-file log line and classification error 30 — no other action, in
particular no header modification and no write — and the loop goes on
to the remaining files with the state unchanged. -/
theorem same_folder_skip (cfg : RunConfig) (nineDict : Option (String → Option String))
    (st : LoopState) (f : FileInput) (rest : List FileInput)
    (h : f.dirAbs = cfg.outputfolder) :
    processFile cfg nineDict st f =
      Except.ok ([Action.logInfo ("# File : " ++ f.path), Action.logError 30 f.path], st)
    ∧ processAll cfg nineDict st (f :: rest) =
      (Action.logInfo ("# File : " ++ f.path) :: Action.logError 30 f.path ::
        (processAll cfg nineDict st rest).1, (processAll cfg nineDict st rest).2) := by
  have h1 : processFile cfg nineDict st f =
      Except.ok ([Action.logInfo ("# File : " ++ f.path), Action.logError 30 f.path], st) := by
    simp [processFile, h]
  exact ⟨h1, by simp [processAll, h1]⟩

/-- Witness for C8: a file residing in `/data/out` itself. -/
theorem same_folder_skip_witness :
    processFile cfgBase none ⟨none, none⟩ { fileTTT with dirAbs := "/data/out" } =
      Except.ok ([Action.logInfo ("# File : " ++ fileTTT.path),
        Action.logError 30 fileTTT.path], ⟨none, none⟩)
    ∧ processAll cfgBase none ⟨none, none⟩ [{ fileTTT with dirAbs := "/data/out" }] =
      (Action.logInfo ("# File : " ++ fileTTT.path) :: Action.logError 30 fileTTT.path ::
        (processAll cfgBase none ⟨none, none⟩ []).1,
       (processAll cfgBase none ⟨none, none⟩ []).2) :=
  same_folder_skip cfgBase none ⟨none, none⟩ { fileTTT with dirAbs := "/data/out" } [] rfl

/-- Generalisation of the nine-char index build over its initial
state: a lookup returns the trimmed LAST input line whose lower-cased
first four characters equal the key, and falls back to the initial
state when no line matches. -/
theorem foldl_nineCharUpd (lines : List String) (init : String → Option String)
    (k : String) :
    lines.foldl nineCharUpd init k =
      match lines.reverse.find? (fun l => nineCharKey l == k) with
      | some l => some l.trim
      | none => init k := by
  induction lines generalizing init with
  | nil => rfl
  | cons l ls ih =>
    simp only [List.foldl_cons, List.reverse_cons, ih, List.find?_append]
    rcases hf : ls.reverse.find? (fun l => nineCharKey l == k) with _ | x
    · simp only [Option.none_or]
      rcases hl : (nineCharKey l == k) with _ | _
      · simp only [List.find?, hl, nineCharUpd]
        rw [if_neg]
        intro hk
        rw [hk] at hl
        simp at hl
      · simp only [List.find?, hl, nineCharUpd]
        rw [if_pos (by simpa using (beq_iff_eq.mp hl).symm)]
    · simp [Option.or]

/-- C9 — the nine-char index of lines 228-229: for every key, the
lookup returns the whitespace-trimmed text of the LAST input line whose
lower-cased first four characters are that key (so each line is indexed
under `line[:4].lower()`, and on duplicate keys the later line silently
wins — the build performs no duplicate detection, being a pure fold of
unconditional dict assignments). -/
theorem nine_char_dict_last_wins (lines : List String) (k : String) :
    buildNineCharDict lines k =
      (lines.reverse.find? (fun l => nineCharKey l == k)).map String.trim := by
  rw [buildNineCharDict, foldl_nineCharUpd]
  rcases lines.reverse.find? (fun l => nineCharKey l == k) <;> rfl

/-- Length of the python-lower of a string. -/
theorem pyLower_length (s : String) : (pyLower s).length = s.length := by
  simp [pyLower]

/-- Length of the python slice `s[n:]`. -/
theorem pyDrop_length (n : Nat) (s : String) : (pyDrop n s).length = s.length - n := by
  simp [pyDrop]

/-- C10 — the marker rename step of line 276 for ANY non-empty marker:
the new filename is the lower-cased marker concatenated with the
original filename minus its first four characters — the code performs
no four-character validation of the marker — so its length is
`|marker| + (|filename| - 4)`, which differs from the original length
whenever the marker's length is not 4 (for the at-least-4-character
filenames the slice presupposes). -/
theorem marker_any_length_rename (marker filename : String) (h : marker ≠ "") :
    applyMarker marker filename = pyLower marker ++ pyDrop 4 filename
    ∧ (applyMarker marker filename).length = marker.length + (filename.length - 4)
    ∧ (marker.length ≠ 4 → 4 ≤ filename.length →
        (applyMarker marker filename).length ≠ filename.length) := by
  refine ⟨rfl, ?_, ?_⟩
  · simp [applyMarker, String.length_append, pyLower_length, pyDrop_length]
  · intro hm hf
    simp only [applyMarker, String.length_append, pyLower_length, pyDrop_length]
    omega

/-- Characterisation of `isWrite`. -/
theorem isWrite_iff (a : Action) :
    isWrite a = true ↔ ∃ w fn c, a = Action.write w fn c := by
  cases a <;> simp [isWrite]

/-- Characterisation of `isLogError`. -/
theorem isLogError_iff (a : Action) :
    isLogError a = true ↔ ∃ c fp, a = Action.logError c fp := by
  cases a <;> simp [isLogError]

/-- Any action produced by the site-resolution step of lines 281-291 is
the warning 32. -/
theorem siteResolve_fst_eq (nd : Option (String → Option String)) (fn p : String) :
    ∀ a ∈ (siteResolve nd fn p).1, a = Action.logWarning 32 p := by
  rcases nd with _ | d
  · simp [siteResolve]
  · rcases hd : d (pyLower (pyTake 4 fn)) <;> simp [siteResolve, hd]

/-- Membership in a conditional singleton trace. -/
theorem mem_ite_singleton {b : Prop} [Decidable b] {a x : Action}
    (h : a ∈ (if b then [x] else [])) : a = x := by
  split at h <;> simp_all

/-- The write step (lines 377-384) appends a write action and possibly
the verbose output-file log, and nothing else. -/
theorem writeStep_shape (cfg : RunConfig) (f : FileInput) (mo fn2 : String)
    (tr : List Action) (c0 msrc : Option String) :
    ∃ extra st', writeStep cfg f mo fn2 tr c0 msrc = Except.ok (tr ++ extra, st')
      ∧ (∃ a ∈ extra, isWrite a = true)
      ∧ (∀ a ∈ extra, isLogError a = false) := by
  refine ⟨Action.write mo fn2 (if pyFalsyCompr c0 then some f.compression else c0)
      :: (if cfg.verbose then [Action.logInfoOutputFile] else []),
    { compression := (if pyFalsyCompr c0 then some f.compression else c0),
      modification_source := msrc }, ?_, ?_, ?_⟩
  · simp [writeStep]
  · exact ⟨Action.write mo fn2 (if pyFalsyCompr c0 then some f.compression else c0),
      List.mem_cons_self _ _, rfl⟩
  · intro a ha
    rcases List.mem_cons.mp ha with h | h
    · subst h; rfl
    · have hx := mem_ite_singleton h
      subst hx; rfl

/-- The marker provenance step (lines 374-375) entered with a bound
`modification_source` appends at most a comment before the write step. -/
theorem markerCommentStep_shape (cfg : RunConfig) (st : LoopState) (f : FileInput)
    (mo fn2 : String) (tr : List Action) (s : String) :
    ∃ extra st', markerCommentStep cfg st f mo fn2 tr (some s) = Except.ok (tr ++ extra, st')
      ∧ (∃ a ∈ extra, isWrite a = true)
      ∧ (∀ a ∈ extra, isLogError a = false) := by
  rw [markerCommentStep]
  by_cases hm : cfg.marker = ""
  · rw [if_neg (by simp [hm])]
    exact writeStep_shape cfg f mo fn2 tr st.compression (some s)
  · rw [if_pos hm]
    obtain ⟨extra, st', heq, hw, he⟩ :=
      writeStep_shape cfg f mo fn2 (tr ++ [Action.addComment ("file assigned  from " ++ s)])
        st.compression (some s)
    refine ⟨Action.addComment ("file assigned  from " ++ s) :: extra, st', ?_, ?_, ?_⟩
    · rw [heq]; simp
    · obtain ⟨a, ha, hwa⟩ := hw; exact ⟨a, List.mem_cons_of_mem _ ha, hwa⟩
    · intro a ha
      rcases List.mem_cons.mp ha with h | h
      · subst h; rfl
      · exact he a h

/-- The tail of the per-file body (lines 342-384), entered with a bound
`modification_source` and a sitelog present, always completes the file:
it appends comment, keyword and write actions but never an error, and
always performs a write. -/
theorem finishTail_shape (cfg : RunConfig) (st : LoopState) (f : FileInput)
    (mo fn2 : String) (tr : List Action) (s : String)
    (hsl : cfg.sitelog.isSome = true) :
    ∃ extra st', finishTail cfg st f mo fn2 tr (some s) = Except.ok (tr ++ extra, st')
      ∧ (∃ a ∈ extra, isWrite a = true)
      ∧ (∀ a ∈ extra, isLogError a = false) := by
  rw [finishTail]
  cases hkw : pyTruthyDict cfg.modification_kw
  · simp only [Bool.false_eq_true, if_false, hsl, Bool.true_or, Bool.or_false, if_true]
    obtain ⟨extra, st', heq, hw, he⟩ :=
      markerCommentStep_shape cfg st f mo fn2
        ((tr ++ (if cfg.verbose then [Action.logInfoMetadata] else [])
          ++ [Action.addComment ("rinexmoded on " ++ cfg.now)])
          ++ [Action.addComment ("rinexmoded from " ++ s)]) s
    refine ⟨(if cfg.verbose then [Action.logInfoMetadata] else [])
        ++ [Action.addComment ("rinexmoded on " ++ cfg.now)]
        ++ [Action.addComment ("rinexmoded from " ++ s)] ++ extra, st', ?_, ?_, ?_⟩
    · rw [heq]; simp
    · obtain ⟨a, ha, hwa⟩ := hw
      exact ⟨a, by simp [ha], hwa⟩
    · intro a ha
      simp only [List.mem_append, List.mem_singleton] at ha
      rcases ha with ((h | h) | h) | h
      · have hx := mem_ite_singleton h
        subst hx; rfl
      · subst h; rfl
      · subst h; rfl
      · exact he a h
  · simp only [if_true, Bool.or_true]
    obtain ⟨extra, st', heq, hw, he⟩ :=
      markerCommentStep_shape cfg st f mo fn2
        (((tr ++ [Action.applyKw (cfg.modification_kw.getD [])]
          ++ (if cfg.verbose then [Action.logInfoMetadata] else [])
          ++ [Action.addComment ("rinexmoded on " ++ cfg.now)])
          ++ [Action.addComment ("rinexmoded from " ++ "command line")])) "command line"
    refine ⟨[Action.applyKw (cfg.modification_kw.getD [])]
        ++ (if cfg.verbose then [Action.logInfoMetadata] else [])
        ++ [Action.addComment ("rinexmoded on " ++ cfg.now)]
        ++ [Action.addComment ("rinexmoded from " ++ "command line")] ++ extra, st', ?_, ?_, ?_⟩
    · rw [heq]; simp
    · obtain ⟨a, ha, hwa⟩ := hw
      exact ⟨a, by simp [ha], hwa⟩
    · intro a ha
      simp only [List.mem_append, List.mem_singleton] at ha
      rcases ha with (((h | h) | h) | h) | h
      · subst h; rfl
      · have hx := mem_ite_singleton h
        subst hx; rfl
      · subst h; rfl
      · subst h; rfl
      · exact he a h

/-- Under the hypotheses that the file reaches the sitelog block with a
matching station, `processFile` is the resolution step applied to a
trace containing neither errors nor writes. -/
theorem processFile_to_sitelogApply (cfg : RunConfig) (sl : SiteLog)
    (nineDict : Option (String → Option String)) (st : LoopState) (f : FileInput)
    (hsl : cfg.sitelog = some sl)
    (hdir : f.dirAbs ≠ cfg.outputfolder)
    (hrec : cfg.reconstruct = "" ∨ pyIn cfg.reconstruct f.path = true)
    (hst : f.status = 0)
    (hmatch : pyLower sl.fourCharID = pyLower f.station) :
    ∃ tr0 mo fn2, processFile cfg nineDict st f = sitelogApply cfg sl st f mo fn2 tr0
      ∧ (∀ a ∈ tr0, isLogError a = false ∧ isWrite a = false) := by
  have hrecF : ¬(cfg.reconstruct ≠ "" ∧ ¬(pyIn cfg.reconstruct f.path = true)) := by
    rcases hrec with h | h
    · exact fun hc => hc.1 h
    · exact fun hc => hc.2 h
  have hgoal : processFile cfg nineDict st f =
      sitelogBlock cfg sl st f
        (if cfg.reconstruct ≠ "" then pyPathJoin cfg.outputfolder f.relFromReconstruct
         else cfg.outputfolder)
        (if cfg.name then
          longFilename (siteResolve nineDict
              (if cfg.marker ≠ "" then applyMarker cfg.marker f.filename else f.filename)
              f.path).2
            f.start_date f.file_period f.sample_rate f.observable_type
         else (if cfg.marker ≠ "" then applyMarker cfg.marker f.filename else f.filename))
        ([Action.logInfo ("# File : " ++ f.path)]
          ++ (if cfg.verbose then [Action.logInfoMetadata] else [])
          ++ (if cfg.name then
                (siteResolve nineDict
                  (if cfg.marker ≠ "" then applyMarker cfg.marker f.filename else f.filename)
                  f.path).1
              else [])) := by
    rw [processFile, if_neg hdir, if_neg hrecF]
    simp only [hst, hsl]
    cases hn : cfg.name
    · simp only [hn, Bool.false_eq_true, if_false]
      norm_num
    · simp only [hn, if_true]
      norm_num
  rw [hgoal, sitelogBlock]
  rw [if_neg (by simp [hmatch])]
  refine ⟨_, _, _, rfl, ?_⟩
  intro a ha
  simp only [List.append_assoc, List.mem_append, List.mem_singleton] at ha
  rcases ha with h | h | h
  · subst h; exact ⟨rfl, rfl⟩
  · rw [mem_ite_singleton h]; exact ⟨rfl, rfl⟩
  · rcases hn : cfg.name with _ | _
    · rw [hn] at h; simp at h
    · rw [hn] at h; simp only [if_true] at h
      rw [siteResolve_fst_eq _ _ _ a h]; exact ⟨rfl, rfl⟩

/-- C6 — the resolver branches of a sitelog-driven run (lines 320-331)
for a file that reaches them: if `rinex_metadata_lines` returns no
instrumentation data, error 35 is logged and the file is skipped (no
write occurs; the loop body returns normally so the run continues with
the next file); if it returns data with the ignore-merge flag set,
warning 36 is logged, no error at all is logged, and the file is still
processed (a write occurs). -/
theorem sitelog_resolver_branches (cfg : RunConfig) (sl : SiteLog)
    (nineDict : Option (String → Option String)) (st : LoopState) (f : FileInput)
    (hsl : cfg.sitelog = some sl)
    (hdir : f.dirAbs ≠ cfg.outputfolder)
    (hrec : cfg.reconstruct = "" ∨ pyIn cfg.reconstruct f.path = true)
    (hst : f.status = 0)
    (hmatch : pyLower sl.fourCharID = pyLower f.station) :
    (∀ ig, sl.rinex_metadata_lines f.start_date f.end_date cfg.ignore = (none, ig) →
      ∃ tr st', processFile cfg nineDict st f = Except.ok (tr, st')
        ∧ Action.logError 35 f.path ∈ tr
        ∧ ∀ w fn c, Action.write w fn c ∉ tr)
    ∧ (∀ m, sl.rinex_metadata_lines f.start_date f.end_date cfg.ignore = (some m, true) →
      ∃ tr st', processFile cfg nineDict st f = Except.ok (tr, st')
        ∧ Action.logWarning 36 f.path ∈ tr
        ∧ (∀ c fp, Action.logError c fp ∉ tr)
        ∧ ∃ w fn c, Action.write w fn c ∈ tr) := by
  obtain ⟨tr0, mo, fn2, heq, hprop⟩ :=
    processFile_to_sitelogApply cfg sl nineDict st f hsl hdir hrec hst hmatch
  constructor
  · intro ig hres
    rw [heq, sitelogApply, hres]
    refine ⟨_, _, rfl, by simp, ?_⟩
    intro w fn c hmem
    simp only [List.mem_append, List.mem_singleton] at hmem
    rcases hmem with h | h
    · have := (hprop _ h).2
      simp [isWrite] at this
    · exact absurd h (by simp)
  · intro m hres
    rw [heq, sitelogApply, hres]
    simp only [if_true]
    obtain ⟨extra, st', heq2, hwrite, herr⟩ :=
      finishTail_shape cfg { st with modification_source := some sl.filename } f mo fn2
        ((tr0 ++ (if (true : Bool) then [Action.logWarning 36 f.path] else []))
          ++ [Action.applySitelogMeta m])
        sl.filename (by simp [hsl])
    refine ⟨_, st', heq2, ?_, ?_, ?_⟩
    · simp
    · intro c fp hmem
      simp only [if_true, List.append_assoc, List.mem_append, List.mem_singleton,
        List.mem_cons] at hmem
      rcases hmem with (h | (h | (h | h)))
      · have := (hprop _ h).1
        simp [isLogError] at this
      · exact absurd h (by simp)
      · exact absurd h (by simp)
      · have := herr _ h
        simp [isLogError] at this
    · obtain ⟨a, ha, hw⟩ := hwrite
      obtain ⟨w, fn, c, rfl⟩ := (isWrite_iff a).mp hw
      exact ⟨w, fn, c, by simp [ha]⟩

/-- Witness for C6: a matching-station file whose sitelog resolver
finds no instrumentation period — error 35 is logged, no write. -/
theorem sitelog_resolver_branches_witness :
    ∃ tr st', processFile { cfgBase with sitelog := some slTTT1none } none
        ⟨none, none⟩ fileTTT = Except.ok (tr, st')
      ∧ Action.logError 35 fileTTT.path ∈ tr
      ∧ ∀ w fn c, Action.write w fn c ∉ tr :=
  (sitelog_resolver_branches { cfgBase with sitelog := some slTTT1none } slTTT1none
    none ⟨none, none⟩ fileTTT rfl (by decide) (Or.inl rfl) rfl rfl).1 false rfl

/-- Witness for C10: the two-character marker `AB` on a standard
12-character short filename changes the filename's length. -/
theorem marker_any_length_rename_witness :
    applyMarker "AB" "abcd0010.21o" = pyLower "AB" ++ pyDrop 4 "abcd0010.21o"
    ∧ (applyMarker "AB" "abcd0010.21o").length = "AB".length + ("abcd0010.21o".length - 4)
    ∧ (applyMarker "AB" "abcd0010.21o").length ≠ "abcd0010.21o".length := by
  obtain ⟨h1, h2, h3⟩ := marker_any_length_rename "AB" "abcd0010.21o" (by decide)
  exact ⟨h1, h2, h3 (by decide) (by decide)⟩

end Rinexmod
